import Mathlib

/-!
# Content-platform operations of `graphene::chain` (protocol/content.hpp)

A shallow embedding of the five operation structs declared in
`libraries/chain/include/graphene/chain/protocol/content.hpp`
(`platform_create_operation`, `platform_update_operation`,
`platform_vote_update_operation`, `post_operation`, `post_update_operation`),
their fee-parameter records, their inline member functions
(`fee_payer_uid`, the `get_required_*_uid_authorities` hooks) and their
`FC_REFLECT` field lists.

Conventions of the embedding:
* `account_uid_type` and `post_pid_type` (64-bit unsigned identifiers) are
  natural numbers; no arithmetic is performed on them in this header.
* `flat_set<account_uid_type>` (a sorted container without duplicates) is a
  `Finset`; `a.insert( x )` is `insert x a`.
* A `void f( flat_set<...>& a ) const` member is a function from the old
  value of `a` to the new one.
* `optional<T>` is `Option T`.
-/

namespace graphene.chain

/-! ## Types declared outside the header -/

/-- A 64-bit account identifier. -/
abbrev account_uid_type := Nat

/-- A 64-bit post identifier. -/
abbrev post_pid_type := Nat

/-- Modelled from the spec: `asset` is declared in a header that is not part of
the sources at hand; the specification describes amounts as
"(integer amount, asset identifier) pairs". -/
structure asset where
  amount : Int
  asset_id : Nat
  deriving DecidableEq, Repr

/-- Modelled from the spec: `fee_type` is declared in `base.hpp`, which is not
part of the sources at hand; the specification describes the fee claim carried
by every operation as "amount + asset". -/
structure fee_type where
  total : asset
  deriving DecidableEq, Repr

/-- Modelled from the spec: `extensions_type` is declared in `base.hpp`, which
is not part of the sources at hand; the specification describes it as a bag of
"(extension_id, payload_bytes) entries". -/
abbrev extensions_type := List (Nat × List Nat)

/-- The authority tiers of section 4.2 of the specification
("`owner` > `active` > `secondary`"); the header names two of them in its hooks
`get_required_active_uid_authorities` and
`get_required_secondary_uid_authorities`. -/
inductive Tier where
  | owner
  | active
  | secondary
  deriving DecidableEq, Repr

namespace base_operation

/-- Modelled from the spec: `base_operation` is declared in `base.hpp`, which is
not part of the sources at hand. Every struct of the header derives from it and
overrides only the hooks it needs; the specification's authority resolver lists
no requirement beyond the overridden ones ("This function never fails; an empty
or singleton result is valid"), so the inherited owner hook leaves its
accumulator untouched. -/
def get_required_owner_uid_authorities (a : Finset account_uid_type) :
    Finset account_uid_type := a

/-- Modelled from the spec: the inherited active hook of `base_operation`
(`base.hpp`, not part of the sources at hand) leaves its accumulator
untouched. -/
def get_required_active_uid_authorities (a : Finset account_uid_type) :
    Finset account_uid_type := a

/-- Modelled from the spec: the inherited secondary hook of `base_operation`
(`base.hpp`, not part of the sources at hand) leaves its accumulator
untouched. -/
def get_required_secondary_uid_authorities (a : Finset account_uid_type) :
    Finset account_uid_type := a

end base_operation

/-! ## The operation structs (content.hpp, lines 15-211) -/

/-- The struct `platform_create_operation` (lines 15-48). -/
structure platform_create_operation where
  fee : fee_type
  account : account_uid_type
  pledge : asset
  name : String
  url : String
  extra_data : String := "\x7b\x7d"
  extensions : extensions_type
  deriving DecidableEq, Repr

/-- The struct `platform_update_operation` (lines 54-87). -/
structure platform_update_operation where
  fee : fee_type
  account : account_uid_type
  new_pledge : Option asset
  new_name : Option String
  new_url : Option String
  new_extra_data : Option String
  extensions : extensions_type
  deriving DecidableEq, Repr

/-- The struct `platform_vote_update_operation` (lines 93-123). -/
structure platform_vote_update_operation where
  fee : fee_type
  voter : account_uid_type
  platform_to_add : Finset account_uid_type
  platform_to_remove : Finset account_uid_type
  extensions : extensions_type
  deriving DecidableEq

/-- The struct `post_operation` (lines 134-169). -/
structure post_operation where
  fee : fee_type
  post_pid : post_pid_type
  platform : account_uid_type := 0
  poster : account_uid_type := 0
  origin_poster : Option account_uid_type
  origin_post_pid : Option post_pid_type
  origin_platform : Option account_uid_type
  hash_value : String
  extra_data : String := "\x7b\x7d"
  title : String
  body : String
  extensions : extensions_type
  deriving DecidableEq, Repr

/-- The struct `post_update_operation` (lines 180-211). -/
structure post_update_operation where
  fee : fee_type
  platform : account_uid_type
  poster : account_uid_type
  post_pid : post_pid_type
  hash_value : Option String
  extra_data : Option String
  title : Option String
  body : Option String
  extensions : extensions_type
  deriving DecidableEq, Repr

/-! ## Inline member functions -/

namespace platform_create_operation

/-- Line 40: `account_uid_type fee_payer_uid()const { return account; }`. -/
def fee_payer_uid (op : platform_create_operation) : account_uid_type :=
  op.account

/-- Lines 43-47: `a.insert( account );`. -/
def get_required_active_uid_authorities (op : platform_create_operation)
    (a : Finset account_uid_type) : Finset account_uid_type :=
  insert op.account a

/-- Not overridden in the struct: inherited from `base_operation`. -/
def get_required_owner_uid_authorities (_op : platform_create_operation)
    (a : Finset account_uid_type) : Finset account_uid_type :=
  base_operation.get_required_owner_uid_authorities a

/-- Not overridden in the struct: inherited from `base_operation`. -/
def get_required_secondary_uid_authorities (_op : platform_create_operation)
    (a : Finset account_uid_type) : Finset account_uid_type :=
  base_operation.get_required_secondary_uid_authorities a

end platform_create_operation

namespace platform_update_operation

/-- Line 79: `account_uid_type fee_payer_uid()const { return account; }`. -/
def fee_payer_uid (op : platform_update_operation) : account_uid_type :=
  op.account

/-- Lines 82-86: `a.insert( account );`. -/
def get_required_active_uid_authorities (op : platform_update_operation)
    (a : Finset account_uid_type) : Finset account_uid_type :=
  insert op.account a

/-- Not overridden in the struct: inherited from `base_operation`. -/
def get_required_owner_uid_authorities (_op : platform_update_operation)
    (a : Finset account_uid_type) : Finset account_uid_type :=
  base_operation.get_required_owner_uid_authorities a

/-- Not overridden in the struct: inherited from `base_operation`. -/
def get_required_secondary_uid_authorities (_op : platform_update_operation)
    (a : Finset account_uid_type) : Finset account_uid_type :=
  base_operation.get_required_secondary_uid_authorities a

end platform_update_operation

namespace platform_vote_update_operation

/-- Line 115: `account_uid_type fee_payer_uid()const { return voter; }`. -/
def fee_payer_uid (op : platform_vote_update_operation) : account_uid_type :=
  op.voter

/-- Lines 118-122: `a.insert( voter );`. -/
def get_required_active_uid_authorities (op : platform_vote_update_operation)
    (a : Finset account_uid_type) : Finset account_uid_type :=
  insert op.voter a

/-- Not overridden in the struct: inherited from `base_operation`. -/
def get_required_owner_uid_authorities (_op : platform_vote_update_operation)
    (a : Finset account_uid_type) : Finset account_uid_type :=
  base_operation.get_required_owner_uid_authorities a

/-- Not overridden in the struct: inherited from `base_operation`. -/
def get_required_secondary_uid_authorities (_op : platform_vote_update_operation)
    (a : Finset account_uid_type) : Finset account_uid_type :=
  base_operation.get_required_secondary_uid_authorities a

end platform_vote_update_operation

namespace post_operation

/-- Line 161: `account_uid_type fee_payer_uid()const { return poster; }`. -/
def fee_payer_uid (op : post_operation) : account_uid_type :=
  op.poster

/-- Lines 164-168: `a.insert( poster ); a.insert( platform );`. -/
def get_required_secondary_uid_authorities (op : post_operation)
    (a : Finset account_uid_type) : Finset account_uid_type :=
  let a1 := insert op.poster a
  insert op.platform a1

/-- Not overridden in the struct: inherited from `base_operation`. -/
def get_required_owner_uid_authorities (_op : post_operation)
    (a : Finset account_uid_type) : Finset account_uid_type :=
  base_operation.get_required_owner_uid_authorities a

/-- Not overridden in the struct: inherited from `base_operation`. -/
def get_required_active_uid_authorities (_op : post_operation)
    (a : Finset account_uid_type) : Finset account_uid_type :=
  base_operation.get_required_active_uid_authorities a

end post_operation

namespace post_update_operation

/-- Line 203: `account_uid_type fee_payer_uid()const { return poster; }`. -/
def fee_payer_uid (op : post_update_operation) : account_uid_type :=
  op.poster

/-- Lines 206-210: `a.insert( poster ); a.insert( platform );`. -/
def get_required_secondary_uid_authorities (op : post_update_operation)
    (a : Finset account_uid_type) : Finset account_uid_type :=
  let a1 := insert op.poster a
  insert op.platform a1

/-- Not overridden in the struct: inherited from `base_operation`. -/
def get_required_owner_uid_authorities (_op : post_update_operation)
    (a : Finset account_uid_type) : Finset account_uid_type :=
  base_operation.get_required_owner_uid_authorities a

/-- Not overridden in the struct: inherited from `base_operation`. -/
def get_required_active_uid_authorities (_op : post_update_operation)
    (a : Finset account_uid_type) : Finset account_uid_type :=
  base_operation.get_required_active_uid_authorities a

end post_update_operation

/-! ## The closed set of operations and the authority resolver -/

/-- The five operation variants of the header, as a tagged union. -/
inductive Operation where
  | platform_create (op : platform_create_operation)
  | platform_update (op : platform_update_operation)
  | platform_vote_update (op : platform_vote_update_operation)
  | post (op : post_operation)
  | post_update (op : post_update_operation)
  deriving DecidableEq

namespace Operation

/-- Dispatch of `fee_payer_uid` over the variants. -/
def fee_payer_uid : Operation → account_uid_type
  | platform_create op => op.fee_payer_uid
  | platform_update op => op.fee_payer_uid
  | platform_vote_update op => op.fee_payer_uid
  | post op => op.fee_payer_uid
  | post_update op => op.fee_payer_uid

/-- Dispatch of `get_required_owner_uid_authorities` over the variants. -/
def get_required_owner_uid_authorities :
    Operation → Finset account_uid_type → Finset account_uid_type
  | platform_create op => op.get_required_owner_uid_authorities
  | platform_update op => op.get_required_owner_uid_authorities
  | platform_vote_update op => op.get_required_owner_uid_authorities
  | post op => op.get_required_owner_uid_authorities
  | post_update op => op.get_required_owner_uid_authorities

/-- Dispatch of `get_required_active_uid_authorities` over the variants. -/
def get_required_active_uid_authorities :
    Operation → Finset account_uid_type → Finset account_uid_type
  | platform_create op => op.get_required_active_uid_authorities
  | platform_update op => op.get_required_active_uid_authorities
  | platform_vote_update op => op.get_required_active_uid_authorities
  | post op => op.get_required_active_uid_authorities
  | post_update op => op.get_required_active_uid_authorities

/-- Dispatch of `get_required_secondary_uid_authorities` over the variants. -/
def get_required_secondary_uid_authorities :
    Operation → Finset account_uid_type → Finset account_uid_type
  | platform_create op => op.get_required_secondary_uid_authorities
  | platform_update op => op.get_required_secondary_uid_authorities
  | platform_vote_update op => op.get_required_secondary_uid_authorities
  | post op => op.get_required_secondary_uid_authorities
  | post_update op => op.get_required_secondary_uid_authorities

/-- Modelled from the spec: the authority resolver `required_authorities(op)` of
section 4.2, "the set of (account_id, tier) pairs that must co-sign"; the code
that collects the hooks is not part of the sources at hand. Every hook is run on
an empty accumulator and each account it leaves there is paired with the hook's
tier. -/
def required_authorities (op : Operation) : Finset (account_uid_type × Tier) :=
  ((op.get_required_owner_uid_authorities ∅).image fun u => (u, Tier.owner))
    ∪ ((op.get_required_active_uid_authorities ∅).image fun u => (u, Tier.active))
    ∪ ((op.get_required_secondary_uid_authorities ∅).image fun u => (u, Tier.secondary))

end Operation

/-! ## Fee-parameter records (the nested `fee_parameters_type` structs) -/

/-- Reduction of a value to an unsigned field of `w` bits. -/
def to_uint (w : Nat) (x : Nat) : Nat := x % 2 ^ w

namespace platform_create_operation

/-- Lines 17-24. -/
structure fee_parameters_type where
  fee : Nat
  min_real_fee : Nat
  min_rf_percent : Nat
  price_per_kbyte : Nat
  extensions : extensions_type
  deriving DecidableEq, Repr

/-- The default member initialisers of lines 19-22; the macro
`GRAPHENE_BLOCKCHAIN_PRECISION` is defined outside the header and is taken as a
parameter. -/
def fee_parameters_type.default (GRAPHENE_BLOCKCHAIN_PRECISION : Nat) :
    fee_parameters_type where
  fee := to_uint 64 (1000 * GRAPHENE_BLOCKCHAIN_PRECISION)
  min_real_fee := to_uint 64 (1000 * GRAPHENE_BLOCKCHAIN_PRECISION)
  min_rf_percent := to_uint 16 10000
  price_per_kbyte := to_uint 32 (10 * GRAPHENE_BLOCKCHAIN_PRECISION)
  extensions := []

end platform_create_operation

namespace platform_update_operation

/-- Lines 56-63. -/
structure fee_parameters_type where
  fee : Nat
  min_real_fee : Nat
  min_rf_percent : Nat
  price_per_kbyte : Nat
  extensions : extensions_type
  deriving DecidableEq, Repr

/-- The default member initialisers of lines 58-61. -/
def fee_parameters_type.default (GRAPHENE_BLOCKCHAIN_PRECISION : Nat) :
    fee_parameters_type where
  fee := to_uint 64 (10 * GRAPHENE_BLOCKCHAIN_PRECISION)
  min_real_fee := to_uint 64 0
  min_rf_percent := to_uint 16 0
  price_per_kbyte := to_uint 32 (10 * GRAPHENE_BLOCKCHAIN_PRECISION)
  extensions := []

end platform_update_operation

namespace platform_vote_update_operation

/-- Lines 95-102. -/
structure fee_parameters_type where
  basic_fee : Nat
  price_per_platform : Nat
  min_real_fee : Nat
  min_rf_percent : Nat
  extensions : extensions_type
  deriving DecidableEq, Repr

/-- The default member initialisers of lines 97-100. -/
def fee_parameters_type.default (GRAPHENE_BLOCKCHAIN_PRECISION : Nat) :
    fee_parameters_type where
  basic_fee := to_uint 64 (1 * GRAPHENE_BLOCKCHAIN_PRECISION)
  price_per_platform := to_uint 64 (1 * GRAPHENE_BLOCKCHAIN_PRECISION)
  min_real_fee := to_uint 64 0
  min_rf_percent := to_uint 16 0
  extensions := []

end platform_vote_update_operation

namespace post_operation

/-- Lines 136-142. -/
structure fee_parameters_type where
  fee : Nat
  price_per_kbyte : Nat
  min_real_fee : Nat
  min_rf_percent : Nat
  extensions : extensions_type
  deriving DecidableEq, Repr

/-- The default member initialisers of lines 137-140. -/
def fee_parameters_type.default (GRAPHENE_BLOCKCHAIN_PRECISION : Nat) :
    fee_parameters_type where
  fee := to_uint 64 (1 * GRAPHENE_BLOCKCHAIN_PRECISION)
  price_per_kbyte := to_uint 32 (10 * GRAPHENE_BLOCKCHAIN_PRECISION)
  min_real_fee := to_uint 64 0
  min_rf_percent := to_uint 16 0
  extensions := []

end post_operation

namespace post_update_operation

/-- Lines 182-188. -/
structure fee_parameters_type where
  fee : Nat
  price_per_kbyte : Nat
  min_real_fee : Nat
  min_rf_percent : Nat
  extensions : extensions_type
  deriving DecidableEq, Repr

/-- The default member initialisers of lines 183-186. -/
def fee_parameters_type.default (GRAPHENE_BLOCKCHAIN_PRECISION : Nat) :
    fee_parameters_type where
  fee := to_uint 64 (1 * GRAPHENE_BLOCKCHAIN_PRECISION)
  price_per_kbyte := to_uint 32 (10 * GRAPHENE_BLOCKCHAIN_PRECISION)
  min_real_fee := to_uint 64 0
  min_rf_percent := to_uint 16 0
  extensions := []

end post_update_operation

/-- The invariant the specification places on `min_rf_percent`
("`min_rf_percent` ∈ [0, 10000]"). -/
def min_rf_percent_in_range (p : Nat) : Prop := 0 ≤ p ∧ p ≤ 10000

instance (p : Nat) : Decidable (min_rf_percent_in_range p) := by
  unfold min_rf_percent_in_range; infer_instance

/-! ## Member declarations and `FC_REFLECT` lists -/

/-- Names of the five operation structs. -/
inductive Variant where
  | platform_create
  | platform_update
  | platform_vote_update
  | post
  | post_update
  deriving DecidableEq, Repr

/-- The declared type of a data member: `T`, or `optional<T>`. -/
inductive FieldType where
  | plain (t : String)
  | optional (t : String)
  deriving DecidableEq, Repr

/-- Whether a declared type is `optional<...>`. -/
def FieldType.is_optional : FieldType → Bool
  | .plain _ => false
  | .optional _ => true

/-- A data member of a struct: its declared type and its name. -/
structure Member where
  type : FieldType
  name : String
  deriving DecidableEq, Repr

/-- The data members of each operation struct, in declaration order
(lines 27-38, 65-77, 105-113, 144-159, 190-201). -/
def members : Variant → List Member
  | .platform_create =>
    [ ⟨.plain "fee_type", "fee"⟩,
      ⟨.plain "account_uid_type", "account"⟩,
      ⟨.plain "asset", "pledge"⟩,
      ⟨.plain "string", "name"⟩,
      ⟨.plain "string", "url"⟩,
      ⟨.plain "string", "extra_data"⟩,
      ⟨.plain "extensions_type", "extensions"⟩ ]
  | .platform_update =>
    [ ⟨.plain "fee_type", "fee"⟩,
      ⟨.plain "account_uid_type", "account"⟩,
      ⟨.optional "asset", "new_pledge"⟩,
      ⟨.optional "string", "new_name"⟩,
      ⟨.optional "string", "new_url"⟩,
      ⟨.optional "string", "new_extra_data"⟩,
      ⟨.plain "extensions_type", "extensions"⟩ ]
  | .platform_vote_update =>
    [ ⟨.plain "fee_type", "fee"⟩,
      ⟨.plain "account_uid_type", "voter"⟩,
      ⟨.plain "flat_set<account_uid_type>", "platform_to_add"⟩,
      ⟨.plain "flat_set<account_uid_type>", "platform_to_remove"⟩,
      ⟨.plain "extensions_type", "extensions"⟩ ]
  | .post =>
    [ ⟨.plain "fee_type", "fee"⟩,
      ⟨.plain "post_pid_type", "post_pid"⟩,
      ⟨.plain "account_uid_type", "platform"⟩,
      ⟨.plain "account_uid_type", "poster"⟩,
      ⟨.optional "account_uid_type", "origin_poster"⟩,
      ⟨.optional "post_pid_type", "origin_post_pid"⟩,
      ⟨.optional "account_uid_type", "origin_platform"⟩,
      ⟨.plain "string", "hash_value"⟩,
      ⟨.plain "string", "extra_data"⟩,
      ⟨.plain "string", "title"⟩,
      ⟨.plain "string", "body"⟩,
      ⟨.plain "extensions_type", "extensions"⟩ ]
  | .post_update =>
    [ ⟨.plain "fee_type", "fee"⟩,
      ⟨.plain "account_uid_type", "platform"⟩,
      ⟨.plain "account_uid_type", "poster"⟩,
      ⟨.plain "post_pid_type", "post_pid"⟩,
      ⟨.optional "string", "hash_value"⟩,
      ⟨.optional "string", "extra_data"⟩,
      ⟨.optional "string", "title"⟩,
      ⟨.optional "string", "body"⟩,
      ⟨.plain "extensions_type", "extensions"⟩ ]

/-- The `FC_REFLECT` member lists of the operation structs
(lines 216, 219, 222, 225-229, 232-236). -/
def reflected : Variant → List String
  | .platform_create =>
    ["fee", "account", "pledge", "name", "url", "extra_data", "extensions"]
  | .platform_update =>
    ["fee", "account", "new_pledge", "new_name", "new_url", "new_extra_data", "extensions"]
  | .platform_vote_update =>
    ["fee", "voter", "platform_to_add", "platform_to_remove", "extensions"]
  | .post =>
    ["fee", "post_pid", "platform", "poster", "origin_poster", "origin_post_pid",
     "origin_platform", "hash_value", "extra_data", "title", "body", "extensions"]
  | .post_update =>
    ["fee", "platform", "poster", "post_pid", "hash_value", "extra_data", "title", "body",
     "extensions"]

/-- The data members of each nested `fee_parameters_type`, in declaration order
(lines 19-23, 58-62, 97-101, 137-141, 183-187). -/
def fee_parameters_members : Variant → List Member
  | .platform_create =>
    [ ⟨.plain "uint64_t", "fee"⟩,
      ⟨.plain "uint64_t", "min_real_fee"⟩,
      ⟨.plain "uint16_t", "min_rf_percent"⟩,
      ⟨.plain "uint32_t", "price_per_kbyte"⟩,
      ⟨.plain "extensions_type", "extensions"⟩ ]
  | .platform_update =>
    [ ⟨.plain "uint64_t", "fee"⟩,
      ⟨.plain "uint64_t", "min_real_fee"⟩,
      ⟨.plain "uint16_t", "min_rf_percent"⟩,
      ⟨.plain "uint32_t", "price_per_kbyte"⟩,
      ⟨.plain "extensions_type", "extensions"⟩ ]
  | .platform_vote_update =>
    [ ⟨.plain "uint64_t", "basic_fee"⟩,
      ⟨.plain "uint64_t", "price_per_platform"⟩,
      ⟨.plain "uint64_t", "min_real_fee"⟩,
      ⟨.plain "uint16_t", "min_rf_percent"⟩,
      ⟨.plain "extensions_type", "extensions"⟩ ]
  | .post =>
    [ ⟨.plain "uint64_t", "fee"⟩,
      ⟨.plain "uint32_t", "price_per_kbyte"⟩,
      ⟨.plain "uint64_t", "min_real_fee"⟩,
      ⟨.plain "uint16_t", "min_rf_percent"⟩,
      ⟨.plain "extensions_type", "extensions"⟩ ]
  | .post_update =>
    [ ⟨.plain "uint64_t", "fee"⟩,
      ⟨.plain "uint32_t", "price_per_kbyte"⟩,
      ⟨.plain "uint64_t", "min_real_fee"⟩,
      ⟨.plain "uint16_t", "min_rf_percent"⟩,
      ⟨.plain "extensions_type", "extensions"⟩ ]

/-- The `FC_REFLECT` member lists of the nested `fee_parameters_type` structs
(lines 215, 218, 221, 224, 231). -/
def fee_parameters_reflected : Variant → List String
  | .platform_create =>
    ["fee", "min_real_fee", "min_rf_percent", "price_per_kbyte", "extensions"]
  | .platform_update =>
    ["fee", "min_real_fee", "min_rf_percent", "price_per_kbyte", "extensions"]
  | .platform_vote_update =>
    ["basic_fee", "price_per_platform", "min_real_fee", "min_rf_percent", "extensions"]
  | .post =>
    ["fee", "price_per_kbyte", "min_real_fee", "min_rf_percent", "extensions"]
  | .post_update =>
    ["fee", "price_per_kbyte", "min_real_fee", "min_rf_percent", "extensions"]

/-- One position of a serialised layout: the member's name and whether it is
encoded as an optional. -/
structure WireField where
  name : String
  optional : Bool
  deriving DecidableEq, Repr

/-- The declared type of the member called `n`, if the struct has one. -/
def member_type (ms : List Member) (n : String) : Option FieldType :=
  (ms.find? fun m => m.name == n).map Member.type

/-- The serialised field sequence of a reflected struct: the reflected member
names in `FC_REFLECT` order, each with the optionality of its declared type.
`none` when a reflected name is not a member of the struct. -/
def reflected_layout (ms : List Member) (names : List String) :
    Option (List WireField) :=
  names.mapM fun n => (member_type ms n).map fun t => WireField.mk n t.is_optional

/-- The serialised field sequence of an operation struct. -/
def operation_layout (v : Variant) : Option (List WireField) :=
  reflected_layout (members v) (reflected v)

/-! ## The wire layout as the specification lists it -/

/-- The wire layout of each variant in the specification's words (section 6,
"External interfaces"): the names are the specification's, a trailing `?` there
is `optional := true` here. -/
def spec_wire_layout : Variant → List WireField
  | .platform_create =>
    [ ⟨"fee", false⟩, ⟨"account", false⟩, ⟨"pledge", false⟩, ⟨"name", false⟩,
      ⟨"url", false⟩, ⟨"extra_data", false⟩, ⟨"extensions", false⟩ ]
  | .platform_update =>
    [ ⟨"fee", false⟩, ⟨"account", false⟩, ⟨"new_pledge", true⟩, ⟨"new_name", true⟩,
      ⟨"new_url", true⟩, ⟨"new_extra_data", true⟩, ⟨"extensions", false⟩ ]
  | .platform_vote_update =>
    [ ⟨"fee", false⟩, ⟨"voter", false⟩, ⟨"platform_to_add", false⟩,
      ⟨"platform_to_remove", false⟩, ⟨"extensions", false⟩ ]
  | .post =>
    [ ⟨"fee", false⟩, ⟨"post_id", false⟩, ⟨"platform", false⟩, ⟨"poster", false⟩,
      ⟨"origin_poster", true⟩, ⟨"origin_post_id", true⟩, ⟨"origin_platform", true⟩,
      ⟨"hash_value", false⟩, ⟨"extra_data", false⟩, ⟨"title", false⟩, ⟨"body", false⟩,
      ⟨"extensions", false⟩ ]
  | .post_update =>
    [ ⟨"fee", false⟩, ⟨"platform", false⟩, ⟨"poster", false⟩, ⟨"post_id", false⟩,
      ⟨"hash_value", true⟩, ⟨"extra_data", true⟩, ⟨"title", true⟩, ⟨"body", true⟩,
      ⟨"extensions", false⟩ ]

/-- The specification writes `post_id` where the header writes `post_pid`; this
reads a specification name as the header's. -/
def read_post_id_as_post_pid (f : WireField) : WireField :=
  if f.name = "post_id" then { f with name := "post_pid" }
  else if f.name = "origin_post_id" then { f with name := "origin_post_pid" }
  else f

/-! ## The structural validator and the fee calculator

The header only declares `validate()` and `calculate_fee(...)`; their bodies are
in a translation unit that is not part of the sources at hand. -/

/-- Modelled from the spec: the failure reasons of section 7 ("Error handling
design"); the validators that raise them are not part of the sources at
hand. -/
inductive ValidationError where
  | MalformedField
  | InconsistentFields
  | InsufficientFee
  | UnknownRequiredExtension
  deriving DecidableEq, Repr

/-- Modelled from the spec: the body of
`platform_vote_update_operation::validate` is not part of the sources at hand.
Section 4.1 lists for this variant the check
"`platform_to_add ∩ platform_to_remove = ∅`" (the absence of duplicates inside
each set being "guaranteed by using a set container"), and section 7 files
"overlapping vote sets" under `InconsistentFields`. -/
def platform_vote_update_operation.validate (op : platform_vote_update_operation) :
    Except ValidationError Unit :=
  if op.platform_to_add ∩ op.platform_to_remove = ∅ then .ok ()
  else .error .InconsistentFields

/-- Modelled from the spec: `ceil(n / d)` in integer arithmetic, the number of
started blocks of `d` bytes; used by the fee calculator, whose body is not part
of the sources at hand. -/
def ceil_div (n d : Nat) : Nat := (n + (d - 1)) / d

/-- Modelled from the spec: step 1 of section 4.3, the size-based component
`ceil(serialized_payload_bytes / 1024) * price_per_kbyte` of the fee calculator,
whose body is not part of the sources at hand. -/
def size_component (serialized_payload_bytes price_per_kbyte : Nat) : Int :=
  (ceil_div serialized_payload_bytes 1024 : Int) * (price_per_kbyte : Int)

/-- Modelled from the spec: step 2 of section 4.3,
"Candidate fee = `base_fee + size_component`", of the fee calculator, whose body
is not part of the sources at hand. -/
def candidate_fee (base_fee price_per_kbyte serialized_payload_bytes : Nat) : Int :=
  (base_fee : Int) + size_component serialized_payload_bytes price_per_kbyte

/-- Modelled from the spec: step 3 of section 4.3,
"`effective_floor = min_real_fee * (10000 - min_rf_percent) / 10000`", of the
fee calculator, whose body is not part of the sources at hand. -/
def effective_floor (min_real_fee min_rf_percent : Nat) : Int :=
  (min_real_fee : Int) * (10000 - (min_rf_percent : Int)) / 10000

/-- Modelled from the spec: step 3 of section 4.3, "the charged amount is the
candidate fee, but never less than" the effective floor; part of the fee
calculator, whose body is not part of the sources at hand. -/
def charged_amount (candidate floor : Int) : Int :=
  if candidate < floor then floor else candidate

/-- Modelled from the spec: the body of `platform_create_operation::calculate_fee`
(declared at line 42) is not part of the sources at hand. Steps 1-3 of section
4.3 on the struct's own `fee_parameters_type` (lines 17-24), whose member `fee`
is the base fee. The serialised length of an operation comes "from external
decoding infrastructure" and is a parameter. -/
def platform_create_operation.calculate_fee (serialized_payload_bytes : Operation → Nat)
    (op : platform_create_operation) (k : platform_create_operation.fee_parameters_type) :
    Int :=
  charged_amount
    (candidate_fee k.fee k.price_per_kbyte
      (serialized_payload_bytes (Operation.platform_create op)))
    (effective_floor k.min_real_fee k.min_rf_percent)

/-- Modelled from the spec: the body of `platform_update_operation::calculate_fee`
(declared at line 81) is not part of the sources at hand. Steps 1-3 of section
4.3 on the struct's own `fee_parameters_type` (lines 56-63). -/
def platform_update_operation.calculate_fee (serialized_payload_bytes : Operation → Nat)
    (op : platform_update_operation) (k : platform_update_operation.fee_parameters_type) :
    Int :=
  charged_amount
    (candidate_fee k.fee k.price_per_kbyte
      (serialized_payload_bytes (Operation.platform_update op)))
    (effective_floor k.min_real_fee k.min_rf_percent)

/-- Modelled from the spec: the body of `post_operation::calculate_fee` (declared
at line 163) is not part of the sources at hand. Steps 1-3 of section 4.3 on the
struct's own `fee_parameters_type` (lines 136-142). -/
def post_operation.calculate_fee (serialized_payload_bytes : Operation → Nat)
    (op : post_operation) (k : post_operation.fee_parameters_type) : Int :=
  charged_amount
    (candidate_fee k.fee k.price_per_kbyte (serialized_payload_bytes (Operation.post op)))
    (effective_floor k.min_real_fee k.min_rf_percent)

/-- Modelled from the spec: the body of `post_update_operation::calculate_fee`
(declared at line 205) is not part of the sources at hand. Steps 1-3 of section
4.3 on the struct's own `fee_parameters_type` (lines 182-188). -/
def post_update_operation.calculate_fee (serialized_payload_bytes : Operation → Nat)
    (op : post_update_operation) (k : post_update_operation.fee_parameters_type) : Int :=
  charged_amount
    (candidate_fee k.fee k.price_per_kbyte
      (serialized_payload_bytes (Operation.post_update op)))
    (effective_floor k.min_real_fee k.min_rf_percent)

/-- Modelled from the spec: step 4 of section 4.3, "The operation's claimed
`fee` amount must be ≥ the computed amount; a lower claim is a validation
failure", reported as `InsufficientFee` (section 7); the code that compares the
claim with the computed fee is not part of the sources at hand. -/
def check_fee (claimed : fee_type) (computed : Int) : Except ValidationError Unit :=
  if computed ≤ claimed.total.amount then .ok ()
  else .error .InsufficientFee

/-- The operation of the specification's fee scenario:
`PlatformCreate` with `pledge=0, name="abc", url="http://x"` and a claimed fee
of 1005. -/
def scenario_platform_create : platform_create_operation :=
  { fee := ⟨⟨1005, 0⟩⟩, account := 1, pledge := ⟨0, 0⟩, name := "abc",
    url := "http://x", extensions := [] }

/-- The fee parameters of the specification's fee scenario: `base_fee=1000` and
`price_per_kbyte=10`, the members the scenario does not mention keeping the
default initialisers of lines 20-21. -/
def scenario_fee_parameters (GRAPHENE_BLOCKCHAIN_PRECISION : Nat) :
    platform_create_operation.fee_parameters_type :=
  { platform_create_operation.fee_parameters_type.default GRAPHENE_BLOCKCHAIN_PRECISION with
    fee := 1000, price_per_kbyte := 10 }

/-! ## Concrete operations used to instantiate the theorems -/

/-- A post by account 11 on platform 22. -/
def sample_post : post_operation :=
  { fee := ⟨⟨100, 0⟩⟩, post_pid := 1, platform := 22, poster := 11,
    origin_poster := none, origin_post_pid := none, origin_platform := none,
    hash_value := "h", title := "t", body := "b", extensions := [] }

/-- Another post by account 11 on platform 22; every other member differs from
`sample_post`. -/
def sample_repost : post_operation :=
  { fee := ⟨⟨7, 3⟩⟩, post_pid := 2, platform := 22, poster := 11,
    origin_poster := some 5, origin_post_pid := some 1, origin_platform := some 6,
    hash_value := "x", extra_data := "e", title := "u", body := "c",
    extensions := [(1, [0])] }

/-- An update by account 11 of a post on platform 22. -/
def sample_post_update : post_update_operation :=
  { fee := ⟨⟨100, 0⟩⟩, platform := 22, poster := 11, post_pid := 1,
    hash_value := none, extra_data := none, title := some "t", body := none,
    extensions := [] }

/-- Another update by account 11 on platform 22; every other member differs from
`sample_post_update`. -/
def sample_post_update_other : post_update_operation :=
  { fee := ⟨⟨7, 3⟩⟩, platform := 22, poster := 11, post_pid := 2,
    hash_value := some "x", extra_data := some "e", title := none, body := some "c",
    extensions := [(1, [0])] }

/-- A vote update that adds and removes the same platform 5. -/
def sample_vote_conflict : platform_vote_update_operation :=
  { fee := ⟨⟨100, 0⟩⟩, voter := 1, platform_to_add := {5}, platform_to_remove := {5},
    extensions := [] }

/-- A vote update whose two sets have nothing in common. -/
def sample_vote_disjoint : platform_vote_update_operation :=
  { fee := ⟨⟨100, 0⟩⟩, voter := 1, platform_to_add := {5, 6}, platform_to_remove := {7},
    extensions := [] }

/-- The member of a `fee_parameters_type` that holds the base fee: `basic_fee` in
`platform_vote_update_operation`, `fee` in the other four structs. -/
def base_fee_member : Variant → String
  | .platform_vote_update => "basic_fee"
  | _ => "fee"

/-- The fee-parameter record in the specification's words (section 3): a base
fee, `min_real_fee`, `min_rf_percent`, `price_per_kbyte` and `extensions`. -/
def spec_fee_record (v : Variant) : List String :=
  [base_fee_member v, "min_real_fee", "min_rf_percent", "price_per_kbyte", "extensions"]

/-- A variant's reflected fee-parameter record consists of exactly the five
fields of the specification's record, in some order. -/
def fee_record_as_specified (v : Variant) : Prop :=
  (fee_parameters_reflected v).Perm (spec_fee_record v)

instance (v : Variant) : Decidable (fee_record_as_specified v) := by
  unfold fee_record_as_specified; infer_instance

/-- The members of a variant's fee-parameter record that the formula of section
4.3 reads: the base fee, `price_per_kbyte`, `min_real_fee` and
`min_rf_percent`. -/
def fee_formula_inputs (v : Variant) : List String :=
  [base_fee_member v, "price_per_kbyte", "min_real_fee", "min_rf_percent"]

/-- The formula of section 4.3 can be evaluated on a variant's fee-parameter
record: every member it reads is declared in the record. -/
def fee_formula_applicable (v : Variant) : Prop :=
  ∀ n ∈ fee_formula_inputs v, (member_type (fee_parameters_members v) n).isSome = true

instance (v : Variant) : Decidable (fee_formula_applicable v) := by
  unfold fee_formula_applicable; infer_instance

/-! ## Helper lemmas -/

theorem insert_insert_eq_union_pair (a : Finset account_uid_type)
    (p q : account_uid_type) : insert q (insert p a) = a ∪ {p, q} := by
  ext x
  simp only [Finset.mem_insert, Finset.mem_union, Finset.mem_singleton]
  tauto

theorem insert_eq_union_single (a : Finset account_uid_type)
    (p : account_uid_type) : insert p a = a ∪ {p} := by
  ext x
  simp only [Finset.mem_insert, Finset.mem_union, Finset.mem_singleton]
  tauto

theorem pair_card (p q : account_uid_type) :
    ({p, q} : Finset account_uid_type).card = if p = q then 1 else 2 := by
  by_cases h : p = q
  · subst h
    simp
  · simp [h, Finset.card_pair h]

theorem ceil_div_1024_eq_ceil (n : Nat) :
    ceil_div n 1024 = ⌈(n : ℚ) / 1024⌉₊ := by
  unfold ceil_div
  apply le_antisymm
  · have h : (n : ℚ) / 1024 ≤ (⌈(n : ℚ) / 1024⌉₊ : ℚ) := Nat.le_ceil _
    have h2 : (n : ℚ) ≤ ((1024 * ⌈(n : ℚ) / 1024⌉₊ : ℕ) : ℚ) := by
      push_cast
      have := (div_le_iff₀ (by norm_num : (0 : ℚ) < 1024)).mp h
      linarith
    have h3 : n ≤ 1024 * ⌈(n : ℚ) / 1024⌉₊ := by exact_mod_cast h2
    omega
  · apply Nat.ceil_le.mpr
    have h1 : n ≤ 1024 * ((n + (1024 - 1)) / 1024) := by omega
    have h2 : (n : ℚ) ≤ ((1024 * ((n + (1024 - 1)) / 1024) : ℕ) : ℚ) := by
      exact_mod_cast h1
    rw [div_le_iff₀ (by norm_num : (0 : ℚ) < 1024)]
    push_cast at h2
    linarith

theorem charged_amount_eq_max (c f : Int) : charged_amount c f = max c f := by
  unfold charged_amount
  split
  · rename_i h
    exact (max_eq_right (le_of_lt h)).symm
  · rename_i h
    exact (max_eq_left (not_lt.mp h)).symm

theorem fee_steps_eq_formula (b p m r n : Nat) :
    charged_amount (candidate_fee b p n) (effective_floor m r)
      = max ((b : Int) + ((⌈(n : ℚ) / 1024⌉₊ : Nat) : Int) * (p : Int))
            ((m : Int) * (10000 - (r : Int)) / 10000) := by
  rw [charged_amount_eq_max]
  unfold candidate_fee size_component effective_floor
  rw [ceil_div_1024_eq_ceil]

theorem candidate_fee_scenario : candidate_fee 1000 10 50 = 1010 := by
  decide

/-! ## Authority resolution -/

/-- C1: for every `post_operation` and every `post_update_operation`, the
secondary hook turns any accumulator `a` into `a ∪ {poster, platform}`; from the
empty set the result is exactly `{poster, platform}` (one element when poster and
platform coincide, two otherwise); two operations that agree on poster and
platform yield the same set whatever their other members; the active hook
contributes nothing, so the resolver returns exactly
`{(poster, secondary), (platform, secondary)}`. -/
theorem post_secondary_authorities (a : Finset account_uid_type) :
    (∀ op : post_operation,
        op.get_required_secondary_uid_authorities a = a ∪ {op.poster, op.platform}
      ∧ op.get_required_secondary_uid_authorities ∅ = {op.poster, op.platform}
      ∧ (op.get_required_secondary_uid_authorities ∅).card
          = (if op.poster = op.platform then 1 else 2)
      ∧ (∀ op2 : post_operation, op.poster = op2.poster → op.platform = op2.platform →
          op.get_required_secondary_uid_authorities a
            = op2.get_required_secondary_uid_authorities a)
      ∧ op.get_required_active_uid_authorities a = a
      ∧ (Operation.post op).required_authorities
          = {(op.poster, Tier.secondary), (op.platform, Tier.secondary)})
    ∧ (∀ op : post_update_operation,
        op.get_required_secondary_uid_authorities a = a ∪ {op.poster, op.platform}
      ∧ op.get_required_secondary_uid_authorities ∅ = {op.poster, op.platform}
      ∧ (op.get_required_secondary_uid_authorities ∅).card
          = (if op.poster = op.platform then 1 else 2)
      ∧ (∀ op2 : post_update_operation, op.poster = op2.poster →
          op.platform = op2.platform →
          op.get_required_secondary_uid_authorities a
            = op2.get_required_secondary_uid_authorities a)
      ∧ op.get_required_active_uid_authorities a = a
      ∧ (Operation.post_update op).required_authorities
          = {(op.poster, Tier.secondary), (op.platform, Tier.secondary)}) := by
  constructor
  · intro op
    have h0 : op.get_required_secondary_uid_authorities ∅ = {op.poster, op.platform} := by
      unfold post_operation.get_required_secondary_uid_authorities
      rw [insert_insert_eq_union_pair, Finset.empty_union]
    refine ⟨insert_insert_eq_union_pair a _ _, h0, ?_, ?_, rfl, ?_⟩
    · rw [h0]; exact pair_card _ _
    · intro op2 hp hq
      unfold post_operation.get_required_secondary_uid_authorities
      rw [hp, hq]
    · ext ⟨u, t⟩
      simp only [Operation.required_authorities, Operation.get_required_owner_uid_authorities,
        Operation.get_required_active_uid_authorities,
        Operation.get_required_secondary_uid_authorities, h0,
        post_operation.get_required_owner_uid_authorities,
        post_operation.get_required_active_uid_authorities,
        base_operation.get_required_owner_uid_authorities,
        base_operation.get_required_active_uid_authorities,
        Finset.image_empty, Finset.empty_union, Finset.mem_image, Finset.mem_insert,
        Finset.mem_singleton, Prod.mk.injEq]
      constructor
      · rintro ⟨x, hx | hx, rfl, rfl⟩
        · exact Or.inl ⟨hx, rfl⟩
        · exact Or.inr ⟨hx, rfl⟩
      · rintro (⟨rfl, rfl⟩ | ⟨rfl, rfl⟩)
        · exact ⟨_, Or.inl rfl, rfl, rfl⟩
        · exact ⟨_, Or.inr rfl, rfl, rfl⟩
  · intro op
    have h0 : op.get_required_secondary_uid_authorities ∅ = {op.poster, op.platform} := by
      unfold post_update_operation.get_required_secondary_uid_authorities
      rw [insert_insert_eq_union_pair, Finset.empty_union]
    refine ⟨insert_insert_eq_union_pair a _ _, h0, ?_, ?_, rfl, ?_⟩
    · rw [h0]; exact pair_card _ _
    · intro op2 hp hq
      unfold post_update_operation.get_required_secondary_uid_authorities
      rw [hp, hq]
    · ext ⟨u, t⟩
      simp only [Operation.required_authorities, Operation.get_required_owner_uid_authorities,
        Operation.get_required_active_uid_authorities,
        Operation.get_required_secondary_uid_authorities, h0,
        post_update_operation.get_required_owner_uid_authorities,
        post_update_operation.get_required_active_uid_authorities,
        base_operation.get_required_owner_uid_authorities,
        base_operation.get_required_active_uid_authorities,
        Finset.image_empty, Finset.empty_union, Finset.mem_image, Finset.mem_insert,
        Finset.mem_singleton, Prod.mk.injEq]
      constructor
      · rintro ⟨x, hx | hx, rfl, rfl⟩
        · exact Or.inl ⟨hx, rfl⟩
        · exact Or.inr ⟨hx, rfl⟩
      · rintro (⟨rfl, rfl⟩ | ⟨rfl, rfl⟩)
        · exact ⟨_, Or.inl rfl, rfl, rfl⟩
        · exact ⟨_, Or.inr rfl, rfl, rfl⟩

/-- Instance of C1: two posts, and two post updates, by account 11 on platform 22
that differ in every other member require the same secondary signers on top of
the accumulator `{7}`. -/
theorem post_secondary_authorities_witness :
    (sample_post.get_required_secondary_uid_authorities {7}
        = sample_repost.get_required_secondary_uid_authorities {7})
    ∧ (sample_post_update.get_required_secondary_uid_authorities {7}
        = sample_post_update_other.get_required_secondary_uid_authorities {7}) :=
  ⟨((post_secondary_authorities {7}).1 sample_post).2.2.2.1 sample_repost rfl rfl,
   ((post_secondary_authorities {7}).2 sample_post_update).2.2.2.1
      sample_post_update_other rfl rfl⟩

/-- C2: for every `platform_create_operation` and every
`platform_update_operation`, the active hook turns any accumulator `a` into
`a ∪ {account}`; from the empty set the result is exactly `{account}`, and it
is the same for any other operation carrying that account, whatever its other
members; the secondary hook contributes nothing, so the resolver returns exactly
`{(account, active)}`. -/
theorem platform_active_authorities (a : Finset account_uid_type) :
    (∀ op : platform_create_operation,
        op.get_required_active_uid_authorities a = a ∪ {op.account}
      ∧ op.get_required_active_uid_authorities ∅ = {op.account}
      ∧ (∀ op2 : platform_create_operation,
          ({ op2 with account := op.account }).get_required_active_uid_authorities a
            = op.get_required_active_uid_authorities a)
      ∧ op.get_required_secondary_uid_authorities a = a
      ∧ (Operation.platform_create op).required_authorities
          = {(op.account, Tier.active)})
    ∧ (∀ op : platform_update_operation,
        op.get_required_active_uid_authorities a = a ∪ {op.account}
      ∧ op.get_required_active_uid_authorities ∅ = {op.account}
      ∧ (∀ op2 : platform_update_operation,
          ({ op2 with account := op.account }).get_required_active_uid_authorities a
            = op.get_required_active_uid_authorities a)
      ∧ op.get_required_secondary_uid_authorities a = a
      ∧ (Operation.platform_update op).required_authorities
          = {(op.account, Tier.active)}) := by
  constructor
  · intro op
    refine ⟨insert_eq_union_single a _, rfl, fun _ => rfl, rfl, ?_⟩
    ext ⟨u, t⟩
    simp [Operation.required_authorities, Operation.get_required_owner_uid_authorities,
      Operation.get_required_active_uid_authorities,
      Operation.get_required_secondary_uid_authorities,
      platform_create_operation.get_required_owner_uid_authorities,
      platform_create_operation.get_required_active_uid_authorities,
      platform_create_operation.get_required_secondary_uid_authorities,
      base_operation.get_required_owner_uid_authorities,
      base_operation.get_required_secondary_uid_authorities]
  · intro op
    refine ⟨insert_eq_union_single a _, rfl, fun _ => rfl, rfl, ?_⟩
    ext ⟨u, t⟩
    simp [Operation.required_authorities, Operation.get_required_owner_uid_authorities,
      Operation.get_required_active_uid_authorities,
      Operation.get_required_secondary_uid_authorities,
      platform_update_operation.get_required_owner_uid_authorities,
      platform_update_operation.get_required_active_uid_authorities,
      platform_update_operation.get_required_secondary_uid_authorities,
      base_operation.get_required_owner_uid_authorities,
      base_operation.get_required_secondary_uid_authorities]

/-- C3: for every `platform_vote_update_operation`, the active hook turns any
accumulator `a` into `a ∪ {voter}`; from the empty set the result is exactly
`{voter}` and the resolver returns exactly `{(voter, active)}`; an account is
required to sign exactly when it is the voter, so the listed accounts of
`platform_to_add` and `platform_to_remove` that must sign are those equal to the
voter. -/
theorem platform_vote_update_active_authorities (a : Finset account_uid_type)
    (op : platform_vote_update_operation) :
    op.get_required_active_uid_authorities a = a ∪ {op.voter}
    ∧ op.get_required_active_uid_authorities ∅ = {op.voter}
    ∧ (Operation.platform_vote_update op).required_authorities
        = {(op.voter, Tier.active)}
    ∧ (∀ u : account_uid_type,
        u ∈ op.get_required_active_uid_authorities ∅ ↔ u = op.voter)
    ∧ (op.platform_to_add ∪ op.platform_to_remove)
          ∩ op.get_required_active_uid_authorities ∅
        = (op.platform_to_add ∪ op.platform_to_remove) ∩ {op.voter} := by
  refine ⟨insert_eq_union_single a _, rfl, ?_, ?_, rfl⟩
  · ext ⟨u, t⟩
    simp [Operation.required_authorities, Operation.get_required_owner_uid_authorities,
      Operation.get_required_active_uid_authorities,
      Operation.get_required_secondary_uid_authorities,
      platform_vote_update_operation.get_required_owner_uid_authorities,
      platform_vote_update_operation.get_required_active_uid_authorities,
      platform_vote_update_operation.get_required_secondary_uid_authorities,
      base_operation.get_required_owner_uid_authorities,
      base_operation.get_required_secondary_uid_authorities]
  · intro u
    simp [platform_vote_update_operation.get_required_active_uid_authorities]

/-! ## Fee payer -/

/-- C4: `fee_payer_uid` returns the member its documentation names: `account` for
`platform_create_operation` and `platform_update_operation`, `voter` for
`platform_vote_update_operation`, and `poster` for `post_operation` and
`post_update_operation`, where it coincides with `platform` only when poster and
platform are the same account. -/
theorem fee_payer_uid_is_documented_payer :
    (∀ op : platform_create_operation, op.fee_payer_uid = op.account)
    ∧ (∀ op : platform_update_operation, op.fee_payer_uid = op.account)
    ∧ (∀ op : platform_vote_update_operation, op.fee_payer_uid = op.voter)
    ∧ (∀ op : post_operation,
        op.fee_payer_uid = op.poster
        ∧ (op.fee_payer_uid = op.platform ↔ op.poster = op.platform))
    ∧ (∀ op : post_update_operation,
        op.fee_payer_uid = op.poster
        ∧ (op.fee_payer_uid = op.platform ↔ op.poster = op.platform)) :=
  ⟨fun _ => rfl, fun _ => rfl, fun _ => rfl, fun _ => ⟨rfl, Iff.rfl⟩,
    fun _ => ⟨rfl, Iff.rfl⟩⟩

/-- C10: for each of the five variants and every accumulator `a`, the fee payer
belongs to the set left by the variant's authority hook: the active hook for
`platform_create_operation`, `platform_update_operation` and
`platform_vote_update_operation`, the secondary hook for `post_operation` and
`post_update_operation`. -/
theorem fee_payer_is_required_signer (a : Finset account_uid_type) :
    (∀ op : platform_create_operation,
        op.fee_payer_uid ∈ op.get_required_active_uid_authorities a)
    ∧ (∀ op : platform_update_operation,
        op.fee_payer_uid ∈ op.get_required_active_uid_authorities a)
    ∧ (∀ op : platform_vote_update_operation,
        op.fee_payer_uid ∈ op.get_required_active_uid_authorities a)
    ∧ (∀ op : post_operation,
        op.fee_payer_uid ∈ op.get_required_secondary_uid_authorities a)
    ∧ (∀ op : post_update_operation,
        op.fee_payer_uid ∈ op.get_required_secondary_uid_authorities a) := by
  refine ⟨fun op => ?_, fun op => ?_, fun op => ?_, fun op => ?_, fun op => ?_⟩
  · exact Finset.mem_insert_self _ _
  · exact Finset.mem_insert_self _ _
  · exact Finset.mem_insert_self _ _
  · exact Finset.mem_insert_of_mem (Finset.mem_insert_self _ _)
  · exact Finset.mem_insert_of_mem (Finset.mem_insert_self _ _)

/-! ## Serialised layout -/

/-- C5: for each of the five variants the `FC_REFLECT` list names the struct's
data members in declaration order, and the resulting serialised field sequence
(names in reflection order, a field optional exactly when its declared type is
`optional<...>`) is the wire layout the specification lists, reading the
specification's `post_id` as `post_pid`; equivalently, the declared members,
each marked optional exactly when its declared type is `optional<...>`, form that
layout. -/
theorem operation_layout_matches_spec (v : Variant) :
    operation_layout v = some ((spec_wire_layout v).map read_post_id_as_post_pid)
    ∧ reflected v = (members v).map Member.name
    ∧ (members v).map (fun m => WireField.mk m.name m.type.is_optional)
        = (spec_wire_layout v).map read_post_id_as_post_pid := by
  cases v <;> decide

/-! ## Fee-parameter records -/

/-- C8 fails for `platform_vote_update_operation`: its reflected fee-parameter
record has no `price_per_kbyte` and has the further fee field
`price_per_platform`. -/
theorem vote_fee_record_not_as_specified :
    ¬ fee_record_as_specified Variant.platform_vote_update
    ∧ "price_per_kbyte" ∉ fee_parameters_reflected Variant.platform_vote_update
    ∧ "price_per_platform" ∈ fee_parameters_reflected Variant.platform_vote_update := by
  decide

/-- C8, amended: for `platform_create_operation`, `platform_update_operation`,
`post_operation` and `post_update_operation` the reflected fee-parameter record
consists of exactly `fee`, `min_real_fee`, `min_rf_percent`, `price_per_kbyte`
and `extensions`; for `platform_vote_update_operation` it is `basic_fee`,
`price_per_platform`, `min_real_fee`, `min_rf_percent`, `extensions`. For all five
variants the reflected list names the declared members in declaration order and
contains the base fee, `min_real_fee`, `min_rf_percent` and `extensions`. -/
theorem fee_parameters_record_fields :
    fee_record_as_specified Variant.platform_create
    ∧ fee_record_as_specified Variant.platform_update
    ∧ fee_record_as_specified Variant.post
    ∧ fee_record_as_specified Variant.post_update
    ∧ fee_parameters_reflected Variant.platform_vote_update
        = ["basic_fee", "price_per_platform", "min_real_fee", "min_rf_percent", "extensions"]
    ∧ (∀ v : Variant,
        fee_parameters_reflected v = (fee_parameters_members v).map Member.name
        ∧ (fee_parameters_reflected v).length = 5
        ∧ base_fee_member v ∈ fee_parameters_reflected v
        ∧ "min_real_fee" ∈ fee_parameters_reflected v
        ∧ "min_rf_percent" ∈ fee_parameters_reflected v
        ∧ "extensions" ∈ fee_parameters_reflected v) := by
  refine ⟨by decide, by decide, by decide, by decide, rfl, fun v => ?_⟩
  cases v <;> decide

/-- C9: whatever the value of `GRAPHENE_BLOCKCHAIN_PRECISION`, the
default-constructed `fee_parameters_type` of each of the five variants has
`min_rf_percent` within `[0, 10000]`: it is 10000 for
`platform_create_operation` and 0 for the other four. -/
theorem default_min_rf_percent_in_range (P : Nat) :
    ((platform_create_operation.fee_parameters_type.default P).min_rf_percent = 10000
      ∧ min_rf_percent_in_range
          (platform_create_operation.fee_parameters_type.default P).min_rf_percent)
    ∧ ((platform_update_operation.fee_parameters_type.default P).min_rf_percent = 0
      ∧ min_rf_percent_in_range
          (platform_update_operation.fee_parameters_type.default P).min_rf_percent)
    ∧ ((platform_vote_update_operation.fee_parameters_type.default P).min_rf_percent = 0
      ∧ min_rf_percent_in_range
          (platform_vote_update_operation.fee_parameters_type.default P).min_rf_percent)
    ∧ ((post_operation.fee_parameters_type.default P).min_rf_percent = 0
      ∧ min_rf_percent_in_range
          (post_operation.fee_parameters_type.default P).min_rf_percent)
    ∧ ((post_update_operation.fee_parameters_type.default P).min_rf_percent = 0
      ∧ min_rf_percent_in_range
          (post_update_operation.fee_parameters_type.default P).min_rf_percent) := by
  refine ⟨⟨?_, ?_⟩, ⟨?_, ?_⟩, ⟨?_, ?_⟩, ⟨?_, ?_⟩, ⟨?_, ?_⟩⟩ <;>
    simp [platform_create_operation.fee_parameters_type.default,
      platform_update_operation.fee_parameters_type.default,
      platform_vote_update_operation.fee_parameters_type.default,
      post_operation.fee_parameters_type.default,
      post_update_operation.fee_parameters_type.default,
      to_uint, min_rf_percent_in_range]

/-! ## Structural validation -/

/-- C7: for every `platform_vote_update_operation`, `validate` succeeds only if
no account belongs to both `platform_to_add` and `platform_to_remove`, and every
operation in which some account belongs to both is rejected (with
`InconsistentFields`). -/
theorem vote_update_validate_rejects_overlap (op : platform_vote_update_operation) :
    (op.validate = .ok () →
      ∀ u : account_uid_type, ¬ (u ∈ op.platform_to_add ∧ u ∈ op.platform_to_remove))
    ∧ (∀ u : account_uid_type, u ∈ op.platform_to_add → u ∈ op.platform_to_remove →
        op.validate = .error ValidationError.InconsistentFields) := by
  unfold platform_vote_update_operation.validate
  by_cases h : op.platform_to_add ∩ op.platform_to_remove = ∅
  · have hno : ∀ u : account_uid_type,
        ¬ (u ∈ op.platform_to_add ∧ u ∈ op.platform_to_remove) := by
      intro u hu
      have hmem : u ∈ op.platform_to_add ∩ op.platform_to_remove :=
        Finset.mem_inter.mpr hu
      rw [h] at hmem
      exact Finset.not_mem_empty u hmem
    rw [if_pos h]
    exact ⟨fun _ => hno, fun u ha hr => absurd ⟨ha, hr⟩ (hno u)⟩
  · rw [if_neg h]
    refine ⟨fun hok => ?_, fun _ _ _ => rfl⟩
    cases hok

/-- Instance of C7: the operation with `platform_to_add = {5}` and
`platform_to_remove = {5}` is rejected, and an accepted operation has disjoint
sets. -/
theorem vote_update_validate_rejects_overlap_witness :
    sample_vote_conflict.validate = .error ValidationError.InconsistentFields
    ∧ (∀ u : account_uid_type,
        ¬ (u ∈ sample_vote_disjoint.platform_to_add
            ∧ u ∈ sample_vote_disjoint.platform_to_remove)) :=
  ⟨(vote_update_validate_rejects_overlap sample_vote_conflict).2 5 (by decide) (by decide),
   (vote_update_validate_rejects_overlap sample_vote_disjoint).1 (if_pos (by decide))⟩

/-! ## Fee calculation -/

/-- C6 fails for `platform_vote_update_operation`: the formula reads
`price_per_kbyte` from the fee-parameter record, and the record of that variant
(lines 95-102) declares no such member, so the formula cannot be evaluated on
it. -/
theorem vote_fee_formula_not_applicable :
    ¬ fee_formula_applicable Variant.platform_vote_update
    ∧ member_type (fee_parameters_members Variant.platform_vote_update) "price_per_kbyte"
        = none := by
  decide

/-- C6, amended: for every operation of the variants `platform_create_operation`,
`platform_update_operation`, `post_operation` and `post_update_operation` and
every fee-parameter record of that variant, all of whose formula inputs are
declared members, `calculate_fee` equals `max(candidate, effective_floor)` with
`candidate = fee + ceil(serialized_payload_bytes / 1024) * price_per_kbyte` and
`effective_floor = min_real_fee * (10000 - min_rf_percent) / 10000`. With
`fee = 1000`, `price_per_kbyte = 10`, the other members at their defaults and a
50-byte `PlatformCreate` payload the computed fee is 1010, so the claimed fee of
1005 is rejected as `InsufficientFee`. For any other values of `min_real_fee` and
`min_rf_percent` the computed fee is `max(1010, effective_floor)`, which is 1010
exactly when the floor is at most 1010, and a claim of 1005 is still
rejected. -/
theorem calculate_fee_formula (serialized_payload_bytes : Operation → Nat) :
    (∀ (op : platform_create_operation) (k : platform_create_operation.fee_parameters_type),
        op.calculate_fee serialized_payload_bytes k
          = max ((k.fee : Int)
                  + ((⌈(serialized_payload_bytes (Operation.platform_create op) : ℚ)
                        / 1024⌉₊ : Nat) : Int) * (k.price_per_kbyte : Int))
                ((k.min_real_fee : Int) * (10000 - (k.min_rf_percent : Int)) / 10000))
    ∧ (∀ (op : platform_update_operation) (k : platform_update_operation.fee_parameters_type),
        op.calculate_fee serialized_payload_bytes k
          = max ((k.fee : Int)
                  + ((⌈(serialized_payload_bytes (Operation.platform_update op) : ℚ)
                        / 1024⌉₊ : Nat) : Int) * (k.price_per_kbyte : Int))
                ((k.min_real_fee : Int) * (10000 - (k.min_rf_percent : Int)) / 10000))
    ∧ (∀ (op : post_operation) (k : post_operation.fee_parameters_type),
        op.calculate_fee serialized_payload_bytes k
          = max ((k.fee : Int)
                  + ((⌈(serialized_payload_bytes (Operation.post op) : ℚ)
                        / 1024⌉₊ : Nat) : Int) * (k.price_per_kbyte : Int))
                ((k.min_real_fee : Int) * (10000 - (k.min_rf_percent : Int)) / 10000))
    ∧ (∀ (op : post_update_operation) (k : post_update_operation.fee_parameters_type),
        op.calculate_fee serialized_payload_bytes k
          = max ((k.fee : Int)
                  + ((⌈(serialized_payload_bytes (Operation.post_update op) : ℚ)
                        / 1024⌉₊ : Nat) : Int) * (k.price_per_kbyte : Int))
                ((k.min_real_fee : Int) * (10000 - (k.min_rf_percent : Int)) / 10000))
    ∧ (fee_formula_applicable Variant.platform_create
        ∧ fee_formula_applicable Variant.platform_update
        ∧ fee_formula_applicable Variant.post
        ∧ fee_formula_applicable Variant.post_update)
    ∧ (∀ P : Nat,
        scenario_platform_create.calculate_fee (fun _ => 50) (scenario_fee_parameters P)
          = 1010
        ∧ check_fee scenario_platform_create.fee
            (scenario_platform_create.calculate_fee (fun _ => 50)
              (scenario_fee_parameters P))
          = .error ValidationError.InsufficientFee)
    ∧ (∀ (op : platform_create_operation) (k : platform_create_operation.fee_parameters_type),
        op.calculate_fee (fun _ => 50) { k with fee := 1000, price_per_kbyte := 10 }
          = max 1010 (effective_floor k.min_real_fee k.min_rf_percent)
        ∧ (op.calculate_fee (fun _ => 50) { k with fee := 1000, price_per_kbyte := 10 } = 1010
            ↔ effective_floor k.min_real_fee k.min_rf_percent ≤ 1010)
        ∧ check_fee ⟨⟨1005, op.fee.total.asset_id⟩⟩
            (op.calculate_fee (fun _ => 50) { k with fee := 1000, price_per_kbyte := 10 })
          = .error ValidationError.InsufficientFee) := by
  have hgen : ∀ (op : platform_create_operation)
      (k : platform_create_operation.fee_parameters_type),
      op.calculate_fee (fun _ => 50) { k with fee := 1000, price_per_kbyte := 10 }
        = max 1010 (effective_floor k.min_real_fee k.min_rf_percent) := by
    intro op k
    unfold platform_create_operation.calculate_fee
    rw [charged_amount_eq_max]
    exact congrArg (fun c => max c (effective_floor k.min_real_fee k.min_rf_percent))
      candidate_fee_scenario
  have hrej : ∀ (claimed : fee_type) (computed : Int), claimed.total.amount = 1005 →
      1010 ≤ computed → check_fee claimed computed = .error ValidationError.InsufficientFee := by
    intro claimed computed hc hle
    unfold check_fee
    rw [if_neg]
    omega
  have hscen : ∀ P : Nat,
      scenario_platform_create.calculate_fee (fun _ => 50) (scenario_fee_parameters P)
        = 1010 := by
    intro P
    have h := hgen scenario_platform_create
      (platform_create_operation.fee_parameters_type.default P)
    have hfloor : effective_floor
        (platform_create_operation.fee_parameters_type.default P).min_real_fee
        (platform_create_operation.fee_parameters_type.default P).min_rf_percent = 0 := by
      simp [effective_floor, platform_create_operation.fee_parameters_type.default, to_uint]
    rw [hfloor] at h
    exact h
  refine ⟨fun _ _ => fee_steps_eq_formula _ _ _ _ _, fun _ _ => fee_steps_eq_formula _ _ _ _ _,
    fun _ _ => fee_steps_eq_formula _ _ _ _ _, fun _ _ => fee_steps_eq_formula _ _ _ _ _,
    ⟨by decide, by decide, by decide, by decide⟩, fun P => ⟨hscen P, ?_⟩, fun op k => ?_⟩
  · rw [hscen P]
    exact hrej _ _ rfl (le_refl _)
  · refine ⟨hgen op k, ?_, ?_⟩
    · rw [hgen op k]
      exact max_eq_left_iff
    · rw [hgen op k]
      exact hrej _ _ rfl (le_max_left _ _)

end graphene.chain
